import Mathlib

set_option maxHeartbeats 1000000

/-!
Verification development for the blind-voting service.

The definitions below are a shallow embedding of the repository's voting
core: the multi-role vote submission, results disclosure, and role
registry handlers of `src/app.py` over the JSON storage semantics of
`src/json_operations.py` / `src/storage.py`, with record shapes matching
`src/models.py` and the roles/votes JSON documents.  Stores are modelled
as explicit lists that each operation receives and returns (the handlers
read the whole store with `load_votes` / `load_roles` and write it back
with `save_votes` / `save_role` / `save_roles`); wall-clock timestamps
are passed in as an explicit `now` parameter.
-/

/-- A candidate entry as stored on a role (the `{'id', 'name'}` objects of
`roles.json`, `Candidate.to_dict` in `src/models.py`).  Identifiers are the
decimal strings `"1"`, `"2"`, ... minted by `create_role` / `update_role`. -/
structure Candidate where
  id : String
  name : String
deriving Repr, DecidableEq

/-- A role record as returned by `get_role_by_id` (`Role.to_dict` in
`src/models.py` / a `roles.json` entry).  `allow_results_override` is the
boolean column added by `src/migrate_add_results_override.py` with default
FALSE; creation/update timestamps are omitted (no claim concerns them). -/
structure Role where
  id : String
  position : String
  candidates : List Candidate
  allowed_emails : List String
  status : String
  allow_results_override : Bool
deriving Repr, DecidableEq

/-- A vote record as stored in `votes.json` (`Vote.to_dict` in
`src/models.py`).  `role_id` is optional because legacy single-role votes
carry no `role_id` key (`vote.get('role_id')` in `src/app.py`); timestamps
are abstracted to a `Nat`. -/
structure Vote where
  voter : String
  candidate_id : String
  candidate_name : String
  role_id : Option String
  role_position : String
  choice : String
  feedback : String
  timestamp : Nat
deriving Repr, DecidableEq

/-- Model of Python `str.lower()` as applied to email strings: ASCII case
folding character by character (`Char.toLower` only folds basic-latin
letters, which matches `str.lower` on the ASCII email strings this app
handles). -/
def pyLower (s : String) : String := String.mk (s.data.map Char.toLower)

/-- Model of Python `str.strip()`: drop leading and trailing whitespace
characters (structurally recursive over the character list, so concrete
instances evaluate). -/
def String.pyStrip (s : String) : String :=
  String.mk (((s.data.dropWhile Char.isWhitespace).reverse.dropWhile
    Char.isWhitespace).reverse)

/-- Model of Python `c in s` for a single character `c`. -/
def String.pyContains (s : String) (c : Char) : Bool := s.data.contains c

/-- Model of Python `int(...)` on the non-negative decimal identifier
strings this app mints (`str(candidate_id)`); `none` models the
`ValueError` any other string would raise at `src/app.py:1061`. -/
def pyToNat? (s : String) : Option Nat :=
  if s.data ≠ [] ∧ s.data.all Char.isDigit then
    some (s.data.foldl (fun acc c => acc * 10 + (c.toNat - 48)) 0)
  else none

/-- Model of `email.strip().lower()` (`src/app.py:182` and the allow-list
normalization at `src/app.py:199`). -/
def normalizeEmail (s : String) : String := pyLower s.pyStrip

/-- `get_role_by_id` of `src/json_operations.py`: first role whose `id`
matches. -/
def get_role_by_id (roles : List Role) (role_id : String) : Option Role :=
  roles.find? (fun r => r.id == role_id)

/-- The distinct error responses of the embedded handlers, one constructor
per `return jsonify({'success': False, ...}), code` site in `src/app.py`. -/
inductive ApiError where
  | roleNotFound
  | emailRequired
  | notAuthorized
  | candidateIdRequired
  | invalidCandidate
  | invalidChoice
  | feedbackRequired
  | positionRequired
  | atLeastOneCandidate
  | invalidEmailFormat (email : String)
  | atLeastOneEmail
  | tooManyVoters
  | cannotRemoveVotedCandidates
  | cannotDeleteRoleWithVotes
  | internalError
deriving Repr, DecidableEq

/-- The HTTP status code each error site returns in `src/app.py`
(404 not-found, 403 forbidden, 400 invalid input / conflict, 500 for an
unhandled exception caught by the global handler). -/
def ApiError.status : ApiError → Nat
  | .roleNotFound => 404
  | .emailRequired => 400
  | .notAuthorized => 403
  | .candidateIdRequired => 400
  | .invalidCandidate => 400
  | .invalidChoice => 400
  | .feedbackRequired => 400
  | .positionRequired => 400
  | .atLeastOneCandidate => 400
  | .invalidEmailFormat _ => 400
  | .atLeastOneEmail => 400
  | .tooManyVoters => 400
  | .cannotRemoveVotedCandidates => 400
  | .cannotDeleteRoleWithVotes => 400
  | .internalError => 500

/-- The `message` string each error site returns in `src/app.py`. -/
def ApiError.text : ApiError → String
  | .roleNotFound => "Role not found"
  | .emailRequired => "Please enter your email"
  | .notAuthorized => "Your email is not authorized to vote for this role"
  | .candidateIdRequired => "Candidate ID is required"
  | .invalidCandidate => "Invalid candidate"
  | .invalidChoice => "Invalid choice"
  | .feedbackRequired => "Feedback is required"
  | .positionRequired => "Position is required"
  | .atLeastOneCandidate => "At least one candidate is required"
  | .invalidEmailFormat e => "Invalid email format: " ++ e
  | .atLeastOneEmail => "At least one voter email is required"
  | .tooManyVoters => "Maximum 5 voters allowed"
  | .cannotRemoveVotedCandidates => "Cannot remove candidates with existing votes"
  | .cannotDeleteRoleWithVotes =>
      "Cannot delete role with existing votes. Mark as expired instead."
  | .internalError => "Internal server error"

/-- The success payload of the multi-role vote submission
(`src/app.py:258-263`). -/
structure SubmitOk where
  message : String
  votes_submitted : Nat
  total_candidates : Nat
deriving Repr, DecidableEq

/-- The duplicate-vote test of `src/app.py:225-227`: same voter
(compared lower-cased), same candidate, same role. -/
def voteMatch (voter_email candidate_id role_id : String) (v : Vote) : Bool :=
  pyLower v.voter == voter_email && v.candidate_id == candidate_id &&
    v.role_id == some role_id

/-- The in-place update-or-append of `src/app.py:242-248`: replace the
first vote matching `p`, else append the new record at the end. -/
def upsertVote (p : Vote → Bool) (newV : Vote) : List Vote → List Vote
  | [] => [newV]
  | v :: vs => if p v then newV :: vs else v :: upsertVote p newV vs

/-- The `vote_record` dict built at `src/app.py:231-240`. -/
def vote_record (role : Role) (cand : Candidate)
    (role_id voter_email candidate_id choice feedback : String) (now : Nat) : Vote :=
  { voter := voter_email
    candidate_id := candidate_id
    candidate_name := cand.name
    role_id := some role_id
    role_position := role.position
    choice := choice
    feedback := feedback
    timestamp := now }

/-- The normalized allow-list of `src/app.py:199`: drop entries blank
after trimming, then trim and lower-case the rest. -/
def normalized_allowed (role : Role) : List String :=
  (role.allowed_emails.filter (fun e => e.pyStrip != "")).map normalizeEmail

/-- The multi-role branch of `submit_vote` (`src/app.py:178-263`, taken
when a non-empty `role_id` is supplied).  Returns the resulting vote store
together with the response; every error site leaves the store untouched
(the handler returns before `save_votes`). -/
def submit_vote (roles : List Role) (votes : List Vote)
    (role_id_arg voter_email_arg candidate_id choice feedback_arg : String)
    (now : Nat) : List Vote × Except ApiError SubmitOk :=
  let voter_email := normalizeEmail voter_email_arg
  let feedback := feedback_arg.pyStrip
  match get_role_by_id roles role_id_arg with
  | none => (votes, .error .roleNotFound)
  | some role =>
    if voter_email = "" then (votes, .error .emailRequired)
    else if (normalized_allowed role).contains voter_email = false then
      (votes, .error .notAuthorized)
    else if candidate_id = "" then (votes, .error .candidateIdRequired)
    else
      match role.candidates.find? (fun c => c.id == candidate_id) with
      | none => (votes, .error .invalidCandidate)
      | some candidate =>
        if choice ≠ "Inclined" ∧ choice ≠ "Not Inclined" then
          (votes, .error .invalidChoice)
        else if feedback = "" then (votes, .error .feedbackRequired)
        else
          let vrec := vote_record role candidate role_id_arg voter_email
            candidate_id choice feedback now
          let existing := votes.any (voteMatch voter_email candidate_id role_id_arg)
          let new_votes := upsertVote (voteMatch voter_email candidate_id role_id_arg)
            vrec votes
          let message :=
            if existing then
              "Vote updated for " ++ candidate.name ++ " (" ++ role.position ++ ")!"
            else
              "Vote recorded for " ++ candidate.name ++ " (" ++ role.position ++ ")!"
          let my_role_votes := new_votes.filter
            (fun v => v.role_id == some role_id_arg && pyLower v.voter == voter_email)
          (new_votes,
           .ok { message := message
                 votes_submitted := my_role_votes.length
                 total_candidates := role.candidates.length })

/-- The incomplete (blinded) payload of `get_role_results`
(`src/app.py:504-514`): counts, waiting message and role metadata only. -/
structure IncompleteResults where
  votes_received : Nat
  votes_needed : Nat
  message : String
  position : String
  total_voters : Nat
  total_candidates : Nat
  role_id : String
deriving Repr, DecidableEq

/-- One per-candidate block of the complete payload
(`src/app.py:517-531`). -/
structure CandidateResult where
  id : String
  name : String
  total_votes : Nat
  inclined : Nat
  not_inclined : Nat
  votes : List Vote
deriving Repr, DecidableEq

/-- The complete (disclosed) payload of `get_role_results`
(`src/app.py:533-541`). -/
structure CompleteResults where
  position : String
  total_voters : Nat
  total_candidates : Nat
  candidates : List CandidateResult
  role_id : String
  status : String
deriving Repr, DecidableEq

/-- The three response shapes of `get_role_results`. -/
inductive ResultsView where
  | notFound
  | incomplete (body : IncompleteResults)
  | complete (body : CompleteResults)
deriving Repr, DecidableEq

/-- `get_role_results` (`src/app.py:488-541`).  Completeness is
recomputed from the stores on every call; note that no branch consults
`allow_results_override`. -/
def get_role_results (roles : List Role) (votes : List Vote)
    (role_id_arg : String) : ResultsView :=
  match get_role_by_id roles role_id_arg with
  | none => .notFound
  | some role =>
    let role_votes := votes.filter (fun v => v.role_id == some role_id_arg)
    let total_voters := role.allowed_emails.length
    let total_candidates := role.candidates.length
    let expected_votes := total_voters * total_candidates
    if role_votes.length < expected_votes then
      .incomplete
        { votes_received := role_votes.length
          votes_needed := expected_votes
          message := "Waiting for " ++ toString (expected_votes - role_votes.length)
            ++ " more vote(s)"
          position := role.position
          total_voters := total_voters
          total_candidates := total_candidates
          role_id := role_id_arg }
    else
      .complete
        { position := role.position
          total_voters := total_voters
          total_candidates := total_candidates
          candidates := role.candidates.map (fun c =>
            let candidate_votes := role_votes.filter (fun v => v.candidate_id == c.id)
            { id := c.id
              name := c.name
              total_votes := candidate_votes.length
              inclined := (candidate_votes.filter (fun v => v.choice == "Inclined")).length
              not_inclined :=
                (candidate_votes.filter (fun v => v.choice == "Not Inclined")).length
              votes := candidate_votes })
          role_id := role_id_arg
          status := role.status }

/-- One entry of a request's `candidates` array, which may be either a
dict (with optional `id` and a `name`) or a bare string
(`isinstance(candidate, dict)` dispatch in `src/app.py`). -/
inductive CandInput where
  | obj (id : Option String) (name : String)
  | str (s : String)
deriving Repr, DecidableEq

/-- The name a candidate entry contributes before trimming
(`candidate.get('name', '')` or `str(candidate)`). -/
def CandInput.rawName : CandInput → String
  | .obj _ n => n
  | .str s => s

/-- The identifier a dict entry may carry (`candidate.get('id')`);
bare strings carry none. -/
def CandInput.cid : CandInput → Option String
  | .obj i _ => i
  | .str _ => none

/-- The fresh-numbering candidate build of `create_role`
(`src/app.py:881-895`) and of the no-votes branch of `update_role`
(`src/app.py:1092-1105`): drop entries whose trimmed name is empty and
assign sequential decimal identifiers to the rest. -/
def build_candidates_fresh (next_id : Nat) : List CandInput → List Candidate
  | [] => []
  | c :: cs =>
    let name := c.rawName.pyStrip
    if name = "" then build_candidates_fresh next_id cs
    else { id := toString next_id, name := name } :: build_candidates_fresh (next_id + 1) cs

/-- The email validation loop shared by `create_role` (`src/app.py:901-907`),
`update_role` (`src/app.py:1110-1117`) and `save_configuration`: trim each
entry, drop blanks, fail on the first trimmed entry lacking an `@` or a `.`
(the error carries that entry), otherwise keep the trimmed entries in
order — with no lower-casing and no deduplication. -/
def validate_emails : List String → Except String (List String)
  | [] => .ok []
  | e :: es =>
    let t := e.pyStrip
    if t = "" then validate_emails es
    else if ¬ (t.pyContains '@' ∧ t.pyContains '.') then .error t
    else (validate_emails es).map (fun rest => t :: rest)

/-- `create_role` (`src/app.py:864-946`).  `new_id` stands for the fresh
`uuid.uuid4()` string; the created role dict has no
`allow_results_override` key, and the column's database default is FALSE. -/
def create_role (roles : List Role) (position_arg : String)
    (cands : List CandInput) (emails : List String) (status_arg : String)
    (new_id : String) : List Role × Except ApiError Role :=
  let position := position_arg.pyStrip
  if position = "" then (roles, .error .positionRequired)
  else
    let valid_candidates := build_candidates_fresh 1 cands
    if valid_candidates.length = 0 then (roles, .error .atLeastOneCandidate)
    else
      match validate_emails emails with
      | .error bad => (roles, .error (.invalidEmailFormat bad))
      | .ok valid_emails =>
        if valid_emails.length = 0 then (roles, .error .atLeastOneEmail)
        else if 5 < valid_emails.length then (roles, .error .tooManyVoters)
        else
          let status :=
            if status_arg = "active" ∨ status_arg = "fulfilled" ∨ status_arg = "expired"
            then status_arg else "active"
          let role : Role :=
            { id := new_id
              position := position
              candidates := valid_candidates
              allowed_emails := valid_emails
              status := status
              allow_results_override := false }
          (roles ++ [role], .ok role)

/-- `max([int(c['id']) for c in role['candidates']], default=0)` at
`src/app.py:1061`: `none` models the `ValueError` a non-decimal identifier
would raise (identifiers minted by this app are decimal strings). -/
def max_candidate_id (cands : List Candidate) : Option Nat :=
  cands.foldl
    (fun acc c =>
      match acc, pyToNat? c.id with
      | some m, some n => some (max m n)
      | _, _ => none)
    (some 0)

/-- The id-preserving candidate build of the has-votes branch of
`update_role` (`src/app.py:1059-1078`): entries whose supplied id is
non-empty and matches an existing candidate keep that id (name may
change); all other surviving entries receive fresh identifiers continuing
from the current maximum. -/
def build_candidates_preserving (existing : List Candidate) :
    Nat → List CandInput → List Candidate
  | _, [] => []
  | max_id, c :: cs =>
    let name := c.rawName.pyStrip
    if name = "" then build_candidates_preserving existing max_id cs
    else
      match c.cid with
      | some cid =>
        if cid ≠ "" ∧ existing.any (fun e => e.id == cid) then
          { id := cid, name := name } :: build_candidates_preserving existing max_id cs
        else
          { id := toString (max_id + 1), name := name } ::
            build_candidates_preserving existing (max_id + 1) cs
      | none =>
        { id := toString (max_id + 1), name := name } ::
          build_candidates_preserving existing (max_id + 1) cs

/-- The optional fields of an `update_role` request body (`'status' in
data` tests become `Option`s). -/
structure UpdateData where
  status : Option String
  position : Option String
  candidates : Option (List CandInput)
  allowed_emails : Option (List String)
deriving Repr, DecidableEq

/-- `save_role` of `src/storage.py` (JSON version): replace the first role
with a matching id, else append. -/
def save_role (roles : List Role) (r : Role) : List Role :=
  match roles with
  | [] => [r]
  | x :: xs => if x.id = r.id then r :: xs else x :: save_role xs r

/-- The status block of `update_role` (`src/app.py:1038-1041`): values
outside `{active, fulfilled, expired}` are ignored without error. -/
def apply_status_update (role : Role) (st : Option String) : Role :=
  match st with
  | some s =>
    if s = "active" ∨ s = "fulfilled" ∨ s = "expired" then
      { role with status := s }
    else role
  | none => role

/-- The position block of `update_role` (`src/app.py:1044-1047`): blank
positions are ignored without error. -/
def apply_position_update (role : Role) (pos : Option String) : Role :=
  match pos with
  | some p => if p.pyStrip ≠ "" then { role with position := p.pyStrip } else role
  | none => role

/-- The voter-email block of `update_role` (`src/app.py:1108-1120`): the
supplied list is validated like `create_role`'s, and a non-empty
validated list replaces the stored list (an empty result is ignored). -/
def apply_emails_update (role : Role) (aem : Option (List String)) :
    Except ApiError Role :=
  match aem with
  | none => .ok role
  | some new_emails =>
    match validate_emails new_emails with
    | .error bad => .error (.invalidEmailFormat bad)
    | .ok valid_emails =>
      if 0 < valid_emails.length then
        .ok { role with allowed_emails := valid_emails }
      else .ok role

/-- `update_role` (`src/app.py:1011-1137`).  The handler mutates a role
dict field by field and persists it only at the end via `save_role`; any
error return happens before that write, so the function returns the
original `roles` store on every error. -/
def update_role (roles : List Role) (votes : List Vote) (role_id_arg : String)
    (data : UpdateData) : List Role × Except ApiError Role :=
  match get_role_by_id roles role_id_arg with
  | none => (roles, .error .roleNotFound)
  | some role0 =>
    let role_votes := votes.filter (fun v => v.role_id == some role_id_arg)
    let role2 := apply_position_update (apply_status_update role0 data.status)
      data.position
    let step_candidates : Except ApiError Role :=
      match data.candidates with
      | none => .ok role2
      | some new_candidates =>
        if 0 < role_votes.length then
          match max_candidate_id role0.candidates with
          | none => .error .internalError
          | some max_id =>
            let valid_candidates :=
              build_candidates_preserving role0.candidates max_id new_candidates
            if role_votes.any
                (fun v => !(valid_candidates.any (fun c => c.id == v.candidate_id))) then
              .error .cannotRemoveVotedCandidates
            else .ok { role2 with candidates := valid_candidates }
        else .ok { role2 with candidates := build_candidates_fresh 1 new_candidates }
    match step_candidates with
    | .error e => (roles, .error e)
    | .ok role3 =>
      match apply_emails_update role3 data.allowed_emails with
      | .error e => (roles, .error e)
      | .ok role4 => (save_role roles role4, .ok role4)

/-- Removal of the role found first by the index scan of `delete_role`
(`src/app.py:1143-1148`, then `roles_data['roles'].pop(role_index)`). -/
def remove_first_role : List Role → String → List Role
  | [], _ => []
  | r :: rs, rid => if r.id = rid then rs else r :: remove_first_role rs rid

/-- `delete_role` (`src/app.py:1139-1170`).  Returns both stores (votes
are never written by this handler) together with the response message. -/
def delete_role (roles : List Role) (votes : List Vote) (role_id_arg : String) :
    (List Role × List Vote) × Except ApiError String :=
  match get_role_by_id roles role_id_arg with
  | none => ((roles, votes), .error .roleNotFound)
  | some role =>
    let role_votes := votes.filter (fun v => v.role_id == some role_id_arg)
    if 0 < role_votes.length then
      ((roles, votes), .error .cannotDeleteRoleWithVotes)
    else
      ((remove_first_role roles role_id_arg, votes),
       .ok ("Role \"" ++ role.position ++ "\" deleted successfully"))

/-- One multi-role `SubmitVote` request (arguments of a single
`POST /api/vote` call carrying a `role_id`). -/
structure SubmitRequest where
  role_id : String
  voter_email : String
  candidate_id : String
  choice : String
  feedback : String
  now : Nat
deriving Repr, DecidableEq

/-- The vote store after a sequence of `submit_vote` calls (each call
keeps the store it produced, whether the call succeeded or failed). -/
def apply_submits (roles : List Role) (votes : List Vote) :
    List SubmitRequest → List Vote
  | [] => votes
  | q :: qs =>
    apply_submits roles
      (submit_vote roles votes q.role_id q.voter_email q.candidate_id
        q.choice q.feedback q.now).1 qs

/-- The identity key of a stored vote: lower-cased voter, candidate id,
role id — the components compared by the duplicate test of
`src/app.py:225-227`. -/
def vote_key (v : Vote) : String × String × Option String :=
  (pyLower v.voter, v.candidate_id, v.role_id)

/-- Number of stored votes carrying a given identity key. -/
def count_key (votes : List Vote) (k : String × String × Option String) : Nat :=
  votes.countP (fun v => vote_key v == k)

/-- At most one live vote per (voter, role, candidate) key. -/
def votes_unique (votes : List Vote) : Prop :=
  ∀ k, count_key votes k ≤ 1

/-- ASCII case folding is idempotent: folding an already-folded character
changes nothing. -/
theorem charToLower_idem (c : Char) : c.toLower.toLower = c.toLower := by
  by_cases hc : c.toNat ≥ 65 ∧ c.toNat ≤ 90
  · have h1 : c.toLower = Char.ofNat (c.toNat + 32) := by
      unfold Char.toLower
      exact if_pos hc
    obtain ⟨ha, hb⟩ := hc
    rw [h1]
    revert ha hb
    generalize c.toNat = n
    intro ha hb
    interval_cases n <;> decide
  · have h1 : c.toLower = c := by
      unfold Char.toLower
      exact if_neg hc
    rw [h1, h1]

/-- `pyLower` is idempotent. -/
theorem pyLower_idem (s : String) : pyLower (pyLower s) = pyLower s := by
  unfold pyLower
  apply congrArg String.mk
  rw [List.map_map]
  exact List.map_congr_left fun c _ => charToLower_idem c

/-- A normalized email is unchanged by a second lower-casing. -/
theorem pyLower_normalizeEmail (s : String) :
    pyLower (normalizeEmail s) = normalizeEmail s := by
  unfold normalizeEmail
  exact pyLower_idem s.pyStrip

/-- The duplicate test of `src/app.py:225-227` holds exactly when the
stored vote carries the submitted identity key. -/
theorem voteMatch_iff (e cid rid : String) (v : Vote) :
    voteMatch e cid rid v = true ↔ vote_key v = (e, cid, some rid) := by
  simp [voteMatch, vote_key, Prod.ext_iff, and_assoc]

/-- A store holds a vote matching the duplicate test exactly when the
submitted key's count is non-zero. -/
theorem any_voteMatch_iff (votes : List Vote) (e cid rid : String) :
    votes.any (voteMatch e cid rid) = true ↔
      count_key votes (e, cid, some rid) ≠ 0 := by
  unfold count_key
  rw [Ne, List.countP_eq_zero]
  simp [voteMatch_iff]

/-- With no matching vote present, the upsert of `src/app.py:242-248`
appends the new record at the end. -/
theorem upsertVote_of_no_match (p : Vote → Bool) (newV : Vote)
    (votes : List Vote) (h : votes.any p = false) :
    upsertVote p newV votes = votes ++ [newV] := by
  induction votes with
  | nil => rfl
  | cons v vs ih =>
    rw [List.any_cons, Bool.or_eq_false_iff] at h
    rw [upsertVote, if_neg (by simp [h.1]), ih h.2]
    rfl

/-- With a matching vote present and at most one match stored, the upsert
of `src/app.py:242-248` leaves the new record as the only match and keeps
the store's length. -/
theorem upsertVote_of_match (p : Vote → Bool) (newV : Vote)
    (votes : List Vote) (hp : p newV = true) (hprior : votes.any p = true)
    (hle : votes.countP p ≤ 1) :
    (upsertVote p newV votes).filter p = [newV] ∧
      (upsertVote p newV votes).length = votes.length := by
  induction votes with
  | nil => simp at hprior
  | cons v vs ih =>
    by_cases hv : p v = true
    · rw [List.countP_cons, if_pos hv] at hle
      have h0 : vs.countP p = 0 := by omega
      rw [upsertVote, if_pos hv]
      constructor
      · rw [List.filter_cons, if_pos hp, List.filter_eq_nil_iff.mpr]
        intro a ha
        have := List.countP_eq_zero.mp h0 a ha
        simp [this]
      · simp
    · rw [List.any_cons, Bool.or_eq_true] at hprior
      rcases hprior with h | h
      · exact absurd h hv
      · rw [List.countP_cons, if_neg hv] at hle
        obtain ⟨ih1, ih2⟩ := ih h (by omega)
        rw [upsertVote, if_neg hv]
        constructor
        · rw [List.filter_cons, if_neg hv, ih1]
        · simp [ih2]

/-- Effect of the upsert on per-key counts: the submitted key ends with
exactly one vote, every other key keeps its count. -/
theorem count_key_upsert (votes : List Vote) (e cid rid : String) (newV : Vote)
    (hk : vote_key newV = (e, cid, some rid))
    (hle : count_key votes (e, cid, some rid) ≤ 1) :
    count_key (upsertVote (voteMatch e cid rid) newV votes) (e, cid, some rid) = 1 ∧
      ∀ k, k ≠ (e, cid, some rid) →
        count_key (upsertVote (voteMatch e cid rid) newV votes) k =
          count_key votes k := by
  induction votes with
  | nil =>
    constructor
    · simp [upsertVote, count_key, hk]
    · intro k hkne
      simp [upsertVote, count_key, hk, Ne.symm hkne]
  | cons v vs ih =>
    by_cases hv : voteMatch e cid rid v = true
    · have hvk : vote_key v = (e, cid, some rid) := (voteMatch_iff e cid rid v).mp hv
      rw [count_key, List.countP_cons, if_pos (by simp [hvk])] at hle
      have h0 : count_key vs (e, cid, some rid) = 0 := by
        unfold count_key at *; omega
      constructor
      · rw [upsertVote, if_pos hv, count_key, List.countP_cons, if_pos (by simp [hk])]
        exact congrArg (· + 1) h0
      · intro k hkne
        rw [upsertVote, if_pos hv, count_key, List.countP_cons,
          if_neg (by simp [hk]; exact Ne.symm hkne), count_key, List.countP_cons,
          if_neg (by simp [hvk]; exact Ne.symm hkne)]
    · have hvk : vote_key v ≠ (e, cid, some rid) := by
        intro h
        exact hv ((voteMatch_iff e cid rid v).mpr h)
      rw [count_key, List.countP_cons, if_neg (by simp [hvk])] at hle
      obtain ⟨ih1, ih2⟩ := ih hle
      constructor
      · rw [upsertVote, if_neg hv, count_key, List.countP_cons, if_neg (by simp [hvk])]
        exact ih1
      · intro k hkne
        rw [upsertVote, if_neg hv, count_key, List.countP_cons, count_key,
          List.countP_cons]
        have := ih2 k hkne
        unfold count_key at this
        omega

/-- Characterization of a fully validated `submit_vote` call: the store is
updated by the keyed upsert and the response reports the post-submission
progress, with the message saying "updated" exactly when a prior vote for
the key existed. -/
theorem submit_vote_ok (roles : List Role) (votes : List Vote)
    (rid raw cid ch fb : String) (now : Nat) (role : Role) (cand : Candidate)
    (hrole : get_role_by_id roles rid = some role)
    (hemail : normalizeEmail raw ≠ "")
    (hauth : (normalized_allowed role).contains (normalizeEmail raw) = true)
    (hcid : cid ≠ "")
    (hcand : role.candidates.find? (fun c => c.id == cid) = some cand)
    (hchoice : ch = "Inclined" ∨ ch = "Not Inclined")
    (hfb : fb.pyStrip ≠ "") :
    submit_vote roles votes rid raw cid ch fb now =
      (upsertVote (voteMatch (normalizeEmail raw) cid rid)
        (vote_record role cand rid (normalizeEmail raw) cid ch fb.pyStrip now) votes,
       .ok
        { message :=
            if votes.any (voteMatch (normalizeEmail raw) cid rid) then
              "Vote updated for " ++ cand.name ++ " (" ++ role.position ++ ")!"
            else
              "Vote recorded for " ++ cand.name ++ " (" ++ role.position ++ ")!"
          votes_submitted :=
            ((upsertVote (voteMatch (normalizeEmail raw) cid rid)
                (vote_record role cand rid (normalizeEmail raw) cid ch fb.pyStrip now)
                votes).filter
              (fun v => v.role_id == some rid &&
                pyLower v.voter == normalizeEmail raw)).length
          total_candidates := role.candidates.length }) := by
  have hch : ¬(ch ≠ "Inclined" ∧ ch ≠ "Not Inclined") := by
    rcases hchoice with h | h <;> simp [h]
  unfold submit_vote
  rw [hrole]
  simp only [hcand]
  rw [hauth]
  simp only [if_neg hemail, if_neg hcid, if_neg hch, if_neg hfb]
  simp


/-- Every `submit_vote` call either leaves the store untouched (all error
sites) or performs exactly the keyed upsert. -/
theorem submit_vote_store_shape (roles : List Role) (votes : List Vote)
    (rid raw cid ch fb : String) (now : Nat) :
    (submit_vote roles votes rid raw cid ch fb now).1 = votes ∨
      ∃ role cand,
        get_role_by_id roles rid = some role ∧
        role.candidates.find? (fun c => c.id == cid) = some cand ∧
        (submit_vote roles votes rid raw cid ch fb now).1 =
          upsertVote (voteMatch (normalizeEmail raw) cid rid)
            (vote_record role cand rid (normalizeEmail raw) cid ch fb.pyStrip now)
            votes := by
  unfold submit_vote
  dsimp only
  split
  · exact Or.inl rfl
  next role hrole =>
    split
    · exact Or.inl rfl
    split
    · exact Or.inl rfl
    split
    · exact Or.inl rfl
    split
    · exact Or.inl rfl
    next cand hcand =>
      split
      · exact Or.inl rfl
      split
      · exact Or.inl rfl
      exact Or.inr ⟨role, cand, hrole, hcand, rfl⟩

/-- The key of a freshly built `vote_record` is the submitted key (the
submitted voter is already normalized, so lower-casing it again changes
nothing). -/
theorem vote_record_key (role : Role) (cand : Candidate)
    (rid raw cid ch fb : String) (now : Nat) :
    vote_key (vote_record role cand rid (normalizeEmail raw) cid ch fb now) =
      (normalizeEmail raw, cid, some rid) := by
  simp [vote_key, vote_record, pyLower_normalizeEmail]

/-- A single `submit_vote` call preserves the per-key uniqueness
invariant. -/
theorem votes_unique_submit (roles : List Role) (votes : List Vote)
    (rid raw cid ch fb : String) (now : Nat) (h : votes_unique votes) :
    votes_unique (submit_vote roles votes rid raw cid ch fb now).1 := by
  rcases submit_vote_store_shape roles votes rid raw cid ch fb now with
    heq | ⟨role, cand, _, _, heq⟩
  · rw [heq]; exact h
  · rw [heq]
    intro k
    have hk := vote_record_key role cand rid raw cid ch fb.pyStrip now
    by_cases hkk : k = (normalizeEmail raw, cid, some rid)
    · subst hkk
      exact le_of_eq
        (count_key_upsert votes (normalizeEmail raw) cid rid _ hk (h _)).1
    · rw [(count_key_upsert votes (normalizeEmail raw) cid rid _ hk (h _)).2 k hkk]
      exact h k

/-- Counting duplicate-test matches is counting the submitted key. -/
theorem countP_voteMatch (votes : List Vote) (e cid rid : String) :
    votes.countP (voteMatch e cid rid) = count_key votes (e, cid, some rid) := by
  induction votes with
  | nil => rfl
  | cons v vs ih =>
    unfold count_key at *
    rw [List.countP_cons, List.countP_cons, ih]
    by_cases hv : voteMatch e cid rid v = true
    · rw [if_pos hv, if_pos (by simp [(voteMatch_iff e cid rid v).mp hv])]
    · rw [if_neg hv, if_neg (by
        simp only [beq_iff_eq, decide_eq_true_eq]
        exact fun hh => hv ((voteMatch_iff e cid rid v).mpr hh))]

/-- The status block never touches the candidate list. -/
theorem apply_status_update_candidates (role : Role) (st : Option String) :
    (apply_status_update role st).candidates = role.candidates := by
  unfold apply_status_update
  cases st with
  | none => rfl
  | some s =>
    dsimp only
    split <;> rfl

/-- The position block never touches the candidate list. -/
theorem apply_position_update_candidates (role : Role) (pos : Option String) :
    (apply_position_update role pos).candidates = role.candidates := by
  unfold apply_position_update
  cases pos with
  | none => rfl
  | some p =>
    dsimp only
    split <;> rfl

/-- When every entry's trimmed name is blank, the fresh candidate build
keeps nothing. -/
theorem build_candidates_fresh_blank (cs : List CandInput)
    (h : ∀ c ∈ cs, c.rawName.pyStrip = "") :
    ∀ n, build_candidates_fresh n cs = [] := by
  induction cs with
  | nil => intro n; rfl
  | cons c cs ih =>
    intro n
    rw [build_candidates_fresh, if_pos (h c (List.mem_cons_self _ _))]
    exact ih (fun x hx => h x (List.mem_cons_of_mem c hx)) n

/-- When every entry is non-blank and contains both `@` and `.` after
trimming, the email validation succeeds and keeps the trimmed entries in
order. -/
theorem validate_emails_all_good (emails : List String)
    (h : ∀ e ∈ emails, e.pyStrip ≠ "" ∧ e.pyStrip.pyContains '@' = true ∧
      e.pyStrip.pyContains '.' = true) :
    validate_emails emails = .ok (emails.map String.pyStrip) := by
  induction emails with
  | nil => rfl
  | cons e es ih =>
    obtain ⟨h1, h2, h3⟩ := h e (List.mem_cons_self _ _)
    rw [validate_emails, if_neg h1, if_neg (by simp [h2, h3]),
      ih (fun x hx => h x (List.mem_cons_of_mem e hx))]
    rfl

/-- Sample role: two candidates, two authorized voters. -/
def sampleRole : Role :=
  { id := "r1"
    position := "Engineer"
    candidates := [{ id := "1", name := "Alice" }, { id := "2", name := "Bob" }]
    allowed_emails := ["a@x.com", "b@x.com"]
    status := "active"
    allow_results_override := false }

/-- Sample stored vote by `a@x.com` on candidate `1` of `sampleRole`. -/
def sampleVote : Vote :=
  { voter := "a@x.com"
    candidate_id := "1"
    candidate_name := "Alice"
    role_id := some "r1"
    role_position := "Engineer"
    choice := "Inclined"
    feedback := "fine"
    timestamp := 1 }

/-- C1: whenever a role's stored vote count is strictly below
voters times candidates, `get_role_results` answers with the blinded
incomplete payload — counts, waiting message and role metadata only — and
that answer is fully determined by the role and the count, so no
individual vote content (voter, choice or feedback) can appear in it. -/
theorem c1_incomplete_results_blinded (roles : List Role)
    (votes votes2 : List Vote) (rid : String) (role : Role)
    (hrole : get_role_by_id roles rid = some role)
    (hlt : (votes.filter (fun v => v.role_id == some rid)).length <
      role.allowed_emails.length * role.candidates.length)
    (hsame : (votes2.filter (fun v => v.role_id == some rid)).length =
      (votes.filter (fun v => v.role_id == some rid)).length) :
    get_role_results roles votes rid =
      ResultsView.incomplete
        { votes_received := (votes.filter (fun v => v.role_id == some rid)).length
          votes_needed := role.allowed_emails.length * role.candidates.length
          message := "Waiting for " ++
            toString (role.allowed_emails.length * role.candidates.length -
              (votes.filter (fun v => v.role_id == some rid)).length) ++
            " more vote(s)"
          position := role.position
          total_voters := role.allowed_emails.length
          total_candidates := role.candidates.length
          role_id := rid } ∧
    get_role_results roles votes2 rid = get_role_results roles votes rid := by
  constructor
  · unfold get_role_results
    rw [hrole]
    dsimp only
    rw [if_pos hlt]
  · unfold get_role_results
    rw [hrole]
    dsimp only
    rw [if_pos (by rw [hsame]; exact hlt), if_pos hlt, hsame]

/-- Witness for C1 at a concrete incomplete store. -/
theorem c1_witness :
    get_role_results [sampleRole] [sampleVote] "r1" =
      ResultsView.incomplete
        { votes_received := 1
          votes_needed := 4
          message := "Waiting for 3 more vote(s)"
          position := "Engineer"
          total_voters := 2
          total_candidates := 2
          role_id := "r1" } :=
  (c1_incomplete_results_blinded [sampleRole] [sampleVote] [sampleVote] "r1"
    sampleRole (by rfl) (by decide) (by rfl)).1

/-- C8: two voter-email inputs equal after trimming and lower-casing give
the same `submit_vote` result — in particular the same
authorized-or-forbidden decision. -/
theorem c8_authorization_case_insensitive (roles : List Role) (votes : List Vote)
    (rid e1 e2 cid ch fb : String) (now : Nat)
    (h : normalizeEmail e1 = normalizeEmail e2) :
    submit_vote roles votes rid e1 cid ch fb now =
      submit_vote roles votes rid e2 cid ch fb now ∧
    ((submit_vote roles votes rid e1 cid ch fb now).2 =
        .error .notAuthorized ↔
      (submit_vote roles votes rid e2 cid ch fb now).2 =
        .error .notAuthorized) := by
  have hmain : submit_vote roles votes rid e1 cid ch fb now =
      submit_vote roles votes rid e2 cid ch fb now := by
    unfold submit_vote
    rw [h]
  exact ⟨hmain, by rw [hmain]⟩

/-- Witness for C8: "Voter@X.com " and "voter@x.com" are treated
identically. -/
theorem c8_witness :
    submit_vote [sampleRole] [] "r1" "Voter@X.com " "1" "Inclined" "ok" 0 =
      submit_vote [sampleRole] [] "r1" "voter@x.com" "1" "Inclined" "ok" 0 :=
  (c8_authorization_case_insensitive [sampleRole] [] "r1" "Voter@X.com "
    "voter@x.com" "1" "Inclined" "ok" 0 (by decide)).1

/-- C9: `delete_role` on a role with at least one vote fails with the
conflict error and changes neither store, and any successful deletion
implies the role had zero votes. -/
theorem c9_delete_role_requires_no_votes (roles : List Role)
    (votes : List Vote) (rid : String) :
    (∀ role, get_role_by_id roles rid = some role →
      0 < (votes.filter (fun v => v.role_id == some rid)).length →
      delete_role roles votes rid =
        ((roles, votes), .error .cannotDeleteRoleWithVotes)) ∧
    (∀ msg, (delete_role roles votes rid).2 = .ok msg →
      (votes.filter (fun v => v.role_id == some rid)).length = 0) := by
  constructor
  · intro role hrole hv
    unfold delete_role
    rw [hrole]
    dsimp only
    rw [if_pos hv]
  · intro msg hok
    unfold delete_role at hok
    cases hrole : get_role_by_id roles rid with
    | none => rw [hrole] at hok; exact absurd hok (by simp)
    | some role =>
      rw [hrole] at hok
      dsimp only at hok
      by_cases hv : 0 < (votes.filter (fun v => v.role_id == some rid)).length
      · rw [if_pos hv] at hok
        exact absurd hok (by simp)
      · omega

/-- Witness for C9: deleting `sampleRole` while `sampleVote` exists is
refused and leaves both stores unchanged. -/
theorem c9_witness :
    delete_role [sampleRole] [sampleVote] "r1" =
      (([sampleRole], [sampleVote]), .error .cannotDeleteRoleWithVotes) :=
  (c9_delete_role_requires_no_votes [sampleRole] [sampleVote] "r1").1
    sampleRole (by rfl) (by decide)

/-- Sample role with the early-disclosure override flag set: one
candidate, one authorized voter. -/
def overrideRole : Role :=
  { id := "r2"
    position := "Manager"
    candidates := [{ id := "1", name := "Carol" }]
    allowed_emails := ["a@x.com"]
    status := "active"
    allow_results_override := true }

/-- C4 counterexample: a role whose override flag is set and whose vote
count (0) is below voters times candidates (1) still receives the blinded
incomplete payload, not the full disclosure payload — `get_role_results`
never reads the flag. -/
theorem c4_counterexample :
    overrideRole.allow_results_override = true ∧
    get_role_results [overrideRole] [] "r2" =
      ResultsView.incomplete
        { votes_received := 0
          votes_needed := 1
          message := "Waiting for 1 more vote(s)"
          position := "Manager"
          total_voters := 1
          total_candidates := 1
          role_id := "r2" } := by
  exact ⟨rfl, by decide⟩

/-- C4 as amended: the override flag has no effect on results disclosure —
even for a role whose flag is set, `get_role_results` answers with the
blinded incomplete payload whenever the stored vote count is below
voters times candidates. -/
theorem c4_override_flag_has_no_effect (roles : List Role) (votes : List Vote)
    (rid : String) (role : Role)
    (hrole : get_role_by_id roles rid = some role)
    (hov : role.allow_results_override = true)
    (hlt : (votes.filter (fun v => v.role_id == some rid)).length <
      role.allowed_emails.length * role.candidates.length) :
    get_role_results roles votes rid =
      ResultsView.incomplete
        { votes_received := (votes.filter (fun v => v.role_id == some rid)).length
          votes_needed := role.allowed_emails.length * role.candidates.length
          message := "Waiting for " ++
            toString (role.allowed_emails.length * role.candidates.length -
              (votes.filter (fun v => v.role_id == some rid)).length) ++
            " more vote(s)"
          position := role.position
          total_voters := role.allowed_emails.length
          total_candidates := role.candidates.length
          role_id := rid } := by
  unfold get_role_results
  rw [hrole]
  dsimp only
  rw [if_pos hlt]

/-- Witness for the amended C4 at the concrete override-flagged role. -/
theorem c4_witness :
    get_role_results [overrideRole] [] "r2" =
      ResultsView.incomplete
        { votes_received := 0
          votes_needed := 1
          message := "Waiting for 1 more vote(s)"
          position := "Manager"
          total_voters := 1
          total_candidates := 1
          role_id := "r2" } :=
  c4_override_flag_has_no_effect [overrideRole] [] "r2" overrideRole
    (by rfl) (by rfl) (by decide)

/-- C10: on a role with zero votes, an update whose candidate list is
empty or all-blank succeeds and stores an empty candidate list, while
`create_role` rejects the same candidate list with the
at-least-one-candidate error. -/
theorem c10_update_allows_empty_candidates (roles : List Role)
    (votes : List Vote) (rid : String) (role0 : Role) (cs : List CandInput)
    (hrole : get_role_by_id roles rid = some role0)
    (hnv : votes.filter (fun v => v.role_id == some rid) = [])
    (hblank : ∀ c ∈ cs, c.rawName.pyStrip = "") :
    update_role roles votes rid
        { status := none, position := none, candidates := some cs,
          allowed_emails := none } =
      (save_role roles { role0 with candidates := [] },
       .ok { role0 with candidates := [] }) ∧
    (∀ position_arg emails status_arg new_id, position_arg.pyStrip ≠ "" →
      create_role roles position_arg cs emails status_arg new_id =
        (roles, .error .atLeastOneCandidate)) := by
  constructor
  · unfold update_role
    rw [hrole]
    dsimp only [apply_status_update, apply_position_update]
    rw [hnv]
    rw [if_neg (by simp), build_candidates_fresh_blank cs hblank 1]
    rfl
  · intro position_arg emails status_arg new_id hpos
    unfold create_role
    rw [if_neg hpos]
    dsimp only
    rw [build_candidates_fresh_blank cs hblank 1]
    rfl

/-- Sample role with no votes referencing it. -/
def emptyRole : Role :=
  { id := "r3"
    position := "Designer"
    candidates := [{ id := "1", name := "Dan" }]
    allowed_emails := ["a@x.com"]
    status := "active"
    allow_results_override := false }

/-- Witness for C10: updating `emptyRole` with one all-blank candidate
entry empties its candidate list. -/
theorem c10_witness :
    update_role [emptyRole] [] "r3"
        { status := none, position := none,
          candidates := some [CandInput.str "  "], allowed_emails := none } =
      ([{ emptyRole with candidates := [] }],
       .ok { emptyRole with candidates := [] }) ∧
    create_role [emptyRole] "Writer" [CandInput.str "  "] ["a@x.com"]
        "active" "r9" =
      ([emptyRole], .error .atLeastOneCandidate) := by
  have h := c10_update_allows_empty_candidates [emptyRole] [] "r3" emptyRole
    [CandInput.str "  "] (by rfl) (by rfl) (by decide)
  exact ⟨h.1, h.2 "Writer" ["a@x.com"] "active" "r9" (by decide)⟩

/-- Uniqueness is preserved across any sequence of submissions. -/
theorem votes_unique_apply_submits (roles : List Role) :
    ∀ (qs : List SubmitRequest) (votes : List Vote), votes_unique votes →
      votes_unique (apply_submits roles votes qs)
  | [], _, h => h
  | q :: qs, votes, h =>
    votes_unique_apply_submits roles qs _
      (votes_unique_submit roles votes q.role_id q.voter_email q.candidate_id
        q.choice q.feedback q.now h)

/-- C2: starting from a store with at most one live vote per
(voter, role, candidate) key, any sequence of `submit_vote` calls keeps
that invariant; and a submission whose key already has a vote replaces
that vote's choice/feedback/timestamp in place — afterwards the key's
only vote is the freshly built record and the store's size is
unchanged. -/
theorem c2_vote_uniqueness_and_replacement (roles : List Role)
    (votes : List Vote) (h : votes_unique votes) :
    (∀ qs : List SubmitRequest,
      votes_unique (apply_submits roles votes qs)) ∧
    (∀ rid raw cid ch fb now (role : Role) (cand : Candidate),
      get_role_by_id roles rid = some role →
      (normalized_allowed role).contains (normalizeEmail raw) = true →
      normalizeEmail raw ≠ "" →
      cid ≠ "" →
      role.candidates.find? (fun c => c.id == cid) = some cand →
      (ch = "Inclined" ∨ ch = "Not Inclined") →
      fb.pyStrip ≠ "" →
      votes.any (voteMatch (normalizeEmail raw) cid rid) = true →
      (submit_vote roles votes rid raw cid ch fb now).1.filter
          (voteMatch (normalizeEmail raw) cid rid) =
        [vote_record role cand rid (normalizeEmail raw) cid ch fb.pyStrip now] ∧
      (submit_vote roles votes rid raw cid ch fb now).1.length =
        votes.length) := by
  constructor
  · intro qs
    exact votes_unique_apply_submits roles qs votes h
  · intro rid raw cid ch fb now role cand hrole hauth hemail hcid hcand hch hfb
      hprior
    have hshape := submit_vote_ok roles votes rid raw cid ch fb now role cand
      hrole hemail hauth hcid hcand hch hfb
    rw [hshape]
    have hp : voteMatch (normalizeEmail raw) cid rid
        (vote_record role cand rid (normalizeEmail raw) cid ch fb.pyStrip now) =
          true := by
      simp [voteMatch, vote_record, pyLower_normalizeEmail]
    have hle : votes.countP (voteMatch (normalizeEmail raw) cid rid) ≤ 1 := by
      rw [countP_voteMatch]
      exact h _
    exact upsertVote_of_match _ _ votes hp hprior hle

/-- Witness for C2: one prior store, a sequence of two requests, and one
replacing resubmission. -/
theorem c2_witness :
    votes_unique (apply_submits [sampleRole] [sampleVote]
      [{ role_id := "r1", voter_email := "b@x.com", candidate_id := "2",
         choice := "Inclined", feedback := "good", now := 7 },
       { role_id := "r1", voter_email := "A@X.com", candidate_id := "1",
         choice := "Not Inclined", feedback := "hmm", now := 8 }]) ∧
    (submit_vote [sampleRole] [sampleVote] "r1" "a@x.com" "1" "Not Inclined"
        " changed my mind " 9).1.filter
      (voteMatch (normalizeEmail "a@x.com") "1" "r1") =
      [vote_record sampleRole { id := "1", name := "Alice" } "r1"
        (normalizeEmail "a@x.com") "1" "Not Inclined" "changed my mind" 9] ∧
    (submit_vote [sampleRole] [sampleVote] "r1" "a@x.com" "1" "Not Inclined"
        " changed my mind " 9).1.length = 1 := by
  have hu : votes_unique [sampleVote] := by
    intro k
    rw [count_key, List.countP_cons, List.countP_nil]
    split <;> decide
  have h := c2_vote_uniqueness_and_replacement [sampleRole] [sampleVote] hu
  refine ⟨h.1 _, ?_⟩
  have h2 := h.2 "r1" "a@x.com" "1" "Not Inclined" " changed my mind " 9
    sampleRole { id := "1", name := "Alice" } (by rfl) (by decide) (by decide)
    (by decide) (by rfl) (Or.inr rfl) (by decide) (by decide)
  exact ⟨by rw [h2.1]; decide, h2.2⟩

/-- C6: submitting the same vote twice stores a single vote for the key.
The first call appends the record and reports "recorded"; the second call
replaces it and reports "updated"; the final store holds exactly one vote
for the key and is one vote larger than the initial store. -/
theorem c6_double_submit_recorded_then_updated (roles : List Role)
    (votes : List Vote) (rid raw cid ch fb : String) (now1 now2 : Nat)
    (role : Role) (cand : Candidate)
    (hrole : get_role_by_id roles rid = some role)
    (hemail : normalizeEmail raw ≠ "")
    (hauth : (normalized_allowed role).contains (normalizeEmail raw) = true)
    (hcid : cid ≠ "")
    (hcand : role.candidates.find? (fun c => c.id == cid) = some cand)
    (hch : ch = "Inclined" ∨ ch = "Not Inclined")
    (hfb : fb.pyStrip ≠ "")
    (hnew : count_key votes (normalizeEmail raw, cid, some rid) = 0) :
    (submit_vote roles votes rid raw cid ch fb now1).1 =
      votes ++ [vote_record role cand rid (normalizeEmail raw) cid ch
        fb.pyStrip now1] ∧
    (∃ k1, (submit_vote roles votes rid raw cid ch fb now1).2 = .ok k1 ∧
      k1.message =
        "Vote recorded for " ++ cand.name ++ " (" ++ role.position ++ ")!") ∧
    (∃ k2, (submit_vote roles
        (submit_vote roles votes rid raw cid ch fb now1).1
        rid raw cid ch fb now2).2 = .ok k2 ∧
      k2.message =
        "Vote updated for " ++ cand.name ++ " (" ++ role.position ++ ")!") ∧
    count_key (submit_vote roles
        (submit_vote roles votes rid raw cid ch fb now1).1
        rid raw cid ch fb now2).1 (normalizeEmail raw, cid, some rid) = 1 ∧
    (submit_vote roles (submit_vote roles votes rid raw cid ch fb now1).1
        rid raw cid ch fb now2).1.length = votes.length + 1 := by
  have hok1 := submit_vote_ok roles votes rid raw cid ch fb now1 role cand
    hrole hemail hauth hcid hcand hch hfb
  have hp1 : voteMatch (normalizeEmail raw) cid rid
      (vote_record role cand rid (normalizeEmail raw) cid ch fb.pyStrip now1) =
        true := by
    simp [voteMatch, vote_record, pyLower_normalizeEmail]
  have hany1 : votes.any (voteMatch (normalizeEmail raw) cid rid) = false := by
    cases hb : votes.any (voteMatch (normalizeEmail raw) cid rid) with
    | false => rfl
    | true => exact absurd hnew ((any_voteMatch_iff votes _ cid rid).mp hb)
  have hstore1 : (submit_vote roles votes rid raw cid ch fb now1).1 =
      votes ++ [vote_record role cand rid (normalizeEmail raw) cid ch
        fb.pyStrip now1] := by
    rw [hok1]
    exact upsertVote_of_no_match _ _ votes hany1
  have hcount1 : count_key (submit_vote roles votes rid raw cid ch fb now1).1
      (normalizeEmail raw, cid, some rid) = 1 := by
    rw [hok1]
    exact (count_key_upsert votes (normalizeEmail raw) cid rid _
      (vote_record_key role cand rid raw cid ch fb.pyStrip now1)
      (by rw [hnew]; decide)).1
  have hany2 : (submit_vote roles votes rid raw cid ch fb now1).1.any
      (voteMatch (normalizeEmail raw) cid rid) = true := by
    rw [hstore1]
    exact List.any_eq_true.mpr ⟨_, by simp, hp1⟩
  have hok2 := submit_vote_ok roles
    (submit_vote roles votes rid raw cid ch fb now1).1
    rid raw cid ch fb now2 role cand hrole hemail hauth hcid hcand hch hfb
  refine ⟨hstore1, ?_, ?_, ?_, ?_⟩
  · refine ⟨_, by rw [hok1], ?_⟩
    dsimp only
    rw [if_neg (by rw [hany1]; exact Bool.false_ne_true)]
  · refine ⟨_, by rw [hok2], ?_⟩
    dsimp only
    rw [if_pos hany2]
  · rw [hok2]
    exact (count_key_upsert _ (normalizeEmail raw) cid rid _
      (vote_record_key role cand rid raw cid ch fb.pyStrip now2)
      (by rw [hcount1])).1
  · rw [hok2]
    have hrepl := upsertVote_of_match (voteMatch (normalizeEmail raw) cid rid)
      (vote_record role cand rid (normalizeEmail raw) cid ch fb.pyStrip now2)
      (submit_vote roles votes rid raw cid ch fb now1).1
      (by simp [voteMatch, vote_record, pyLower_normalizeEmail]) hany2
      (by rw [countP_voteMatch, hcount1])
    rw [hrepl.2, hstore1]
    simp

/-- Witness for C6 on an empty initial store. -/
theorem c6_witness :
    (submit_vote [sampleRole] [] "r1" "b@x.com" "2" "Inclined" "neat" 3).1 =
      [vote_record sampleRole { id := "2", name := "Bob" } "r1"
        (normalizeEmail "b@x.com") "2" "Inclined" "neat" 3] ∧
    count_key (submit_vote [sampleRole]
        (submit_vote [sampleRole] [] "r1" "b@x.com" "2" "Inclined" "neat" 3).1
        "r1" "b@x.com" "2" "Inclined" "neat" 4).1
      (normalizeEmail "b@x.com", "2", some "r1") = 1 := by
  have h := c6_double_submit_recorded_then_updated [sampleRole] []
    "r1" "b@x.com" "2" "Inclined" "neat" 3 4 sampleRole
    { id := "2", name := "Bob" } (by rfl) (by decide) (by decide) (by decide)
    (by rfl) (Or.inl rfl) (by decide) (by rfl)
  exact ⟨by rw [h.1]; rfl, h.2.2.2.1⟩

/-- C3: the multi-role `submit_vote` validates in order — role lookup
(404 not-found), empty trimmed email (400), unauthorized normalized email
(403 forbidden), empty or unknown candidate (400), bad choice (400),
blank feedback (400) — each failure leaving the vote store untouched, and
only the fully validated call writes, performing exactly one keyed
create-or-replace. -/
theorem c3_submit_validation_chain (roles : List Role) (votes : List Vote)
    (rid raw cid ch fb : String) (now : Nat) :
    (get_role_by_id roles rid = none →
      submit_vote roles votes rid raw cid ch fb now =
        (votes, .error .roleNotFound)) ∧
    (∀ role, get_role_by_id roles rid = some role →
      normalizeEmail raw = "" →
      submit_vote roles votes rid raw cid ch fb now =
        (votes, .error .emailRequired)) ∧
    (∀ role, get_role_by_id roles rid = some role →
      normalizeEmail raw ≠ "" →
      (normalized_allowed role).contains (normalizeEmail raw) = false →
      submit_vote roles votes rid raw cid ch fb now =
        (votes, .error .notAuthorized)) ∧
    (∀ role, get_role_by_id roles rid = some role →
      normalizeEmail raw ≠ "" →
      (normalized_allowed role).contains (normalizeEmail raw) = true →
      cid = "" →
      submit_vote roles votes rid raw cid ch fb now =
        (votes, .error .candidateIdRequired)) ∧
    (∀ role, get_role_by_id roles rid = some role →
      normalizeEmail raw ≠ "" →
      (normalized_allowed role).contains (normalizeEmail raw) = true →
      cid ≠ "" →
      role.candidates.find? (fun c => c.id == cid) = none →
      submit_vote roles votes rid raw cid ch fb now =
        (votes, .error .invalidCandidate)) ∧
    (∀ role cand, get_role_by_id roles rid = some role →
      normalizeEmail raw ≠ "" →
      (normalized_allowed role).contains (normalizeEmail raw) = true →
      cid ≠ "" →
      role.candidates.find? (fun c => c.id == cid) = some cand →
      ch ≠ "Inclined" ∧ ch ≠ "Not Inclined" →
      submit_vote roles votes rid raw cid ch fb now =
        (votes, .error .invalidChoice)) ∧
    (∀ role cand, get_role_by_id roles rid = some role →
      normalizeEmail raw ≠ "" →
      (normalized_allowed role).contains (normalizeEmail raw) = true →
      cid ≠ "" →
      role.candidates.find? (fun c => c.id == cid) = some cand →
      (ch = "Inclined" ∨ ch = "Not Inclined") →
      fb.pyStrip = "" →
      submit_vote roles votes rid raw cid ch fb now =
        (votes, .error .feedbackRequired)) ∧
    (∀ role cand, get_role_by_id roles rid = some role →
      normalizeEmail raw ≠ "" →
      (normalized_allowed role).contains (normalizeEmail raw) = true →
      cid ≠ "" →
      role.candidates.find? (fun c => c.id == cid) = some cand →
      (ch = "Inclined" ∨ ch = "Not Inclined") →
      fb.pyStrip ≠ "" →
      (submit_vote roles votes rid raw cid ch fb now).1 =
        upsertVote (voteMatch (normalizeEmail raw) cid rid)
          (vote_record role cand rid (normalizeEmail raw) cid ch
            fb.pyStrip now) votes ∧
      (submit_vote roles votes rid raw cid ch fb now).2.isOk = true) ∧
    (ApiError.roleNotFound.status = 404 ∧ ApiError.emailRequired.status = 400 ∧
     ApiError.notAuthorized.status = 403 ∧
     ApiError.candidateIdRequired.status = 400 ∧
     ApiError.invalidCandidate.status = 400 ∧
     ApiError.invalidChoice.status = 400 ∧
     ApiError.feedbackRequired.status = 400) := by
  refine ⟨?_, ?_, ?_, ?_, ?_, ?_, ?_, ?_, by decide⟩
  · intro h
    unfold submit_vote
    rw [h]
  · intro role hrole hem
    unfold submit_vote
    rw [hrole]
    dsimp only
    rw [if_pos hem]
  · intro role hrole hem hauth
    unfold submit_vote
    rw [hrole]
    dsimp only
    rw [if_neg hem, if_pos hauth]
  · intro role hrole hem hauth hc
    unfold submit_vote
    rw [hrole]
    dsimp only
    rw [if_neg hem, if_neg (by rw [hauth]; simp), if_pos hc]
  · intro role hrole hem hauth hc hfind
    unfold submit_vote
    rw [hrole]
    dsimp only
    rw [if_neg hem, if_neg (by rw [hauth]; simp), if_neg hc, hfind]
  · intro role cand hrole hem hauth hc hfind hbad
    unfold submit_vote
    rw [hrole]
    dsimp only
    rw [if_neg hem, if_neg (by rw [hauth]; simp), if_neg hc, hfind]
    dsimp only
    rw [if_pos hbad]
  · intro role cand hrole hem hauth hc hfind hgood hfb
    have hch : ¬(ch ≠ "Inclined" ∧ ch ≠ "Not Inclined") := by
      rcases hgood with h | h <;> simp [h]
    unfold submit_vote
    rw [hrole]
    dsimp only
    rw [if_neg hem, if_neg (by rw [hauth]; simp), if_neg hc, hfind]
    dsimp only
    rw [if_neg hch, if_pos hfb]
  · intro role cand hrole hem hauth hc hfind hgood hfb
    rw [submit_vote_ok roles votes rid raw cid ch fb now role cand hrole hem
      hauth hc hfind hgood hfb]
    exact ⟨rfl, rfl⟩

/-- Witness for C3: each validation failure at a concrete input, in
order, plus a fully validated success. -/
theorem c3_witness :
    submit_vote [] [] "r1" "a@x.com" "1" "Inclined" "ok" 0 =
      ([], .error .roleNotFound) ∧
    submit_vote [sampleRole] [] "r1" "   " "1" "Inclined" "ok" 0 =
      ([], .error .emailRequired) ∧
    submit_vote [sampleRole] [] "r1" "evil@x.com" "1" "Inclined" "ok" 0 =
      ([], .error .notAuthorized) ∧
    submit_vote [sampleRole] [] "r1" "a@x.com" "" "Inclined" "ok" 0 =
      ([], .error .candidateIdRequired) ∧
    submit_vote [sampleRole] [] "r1" "a@x.com" "9" "Inclined" "ok" 0 =
      ([], .error .invalidCandidate) ∧
    submit_vote [sampleRole] [] "r1" "a@x.com" "1" "inclined" "ok" 0 =
      ([], .error .invalidChoice) ∧
    submit_vote [sampleRole] [] "r1" "a@x.com" "1" "Inclined" "   " 0 =
      ([], .error .feedbackRequired) ∧
    (submit_vote [sampleRole] [] "r1" "a@x.com" "1" "Inclined" "ok" 0).2.isOk =
      true := by
  refine ⟨(c3_submit_validation_chain [] [] "r1" "a@x.com" "1" "Inclined" "ok"
    0).1 (by rfl), ?_, ?_, ?_, ?_, ?_, ?_, ?_⟩
  · exact (c3_submit_validation_chain [sampleRole] [] "r1" "   " "1" "Inclined"
      "ok" 0).2.1 sampleRole (by rfl) (by decide)
  · exact (c3_submit_validation_chain [sampleRole] [] "r1" "evil@x.com" "1"
      "Inclined" "ok" 0).2.2.1 sampleRole (by rfl) (by decide) (by decide)
  · exact (c3_submit_validation_chain [sampleRole] [] "r1" "a@x.com" ""
      "Inclined" "ok" 0).2.2.2.1 sampleRole (by rfl) (by decide) (by decide)
      (by rfl)
  · exact (c3_submit_validation_chain [sampleRole] [] "r1" "a@x.com" "9"
      "Inclined" "ok" 0).2.2.2.2.1 sampleRole (by rfl) (by decide) (by decide)
      (by decide) (by rfl)
  · exact (c3_submit_validation_chain [sampleRole] [] "r1" "a@x.com" "1"
      "inclined" "ok" 0).2.2.2.2.2.1 sampleRole { id := "1", name := "Alice" }
      (by rfl) (by decide) (by decide) (by decide) (by rfl) (by decide)
  · exact (c3_submit_validation_chain [sampleRole] [] "r1" "a@x.com" "1"
      "Inclined" "   " 0).2.2.2.2.2.2.1 sampleRole { id := "1", name := "Alice" }
      (by rfl) (by decide) (by decide) (by decide) (by rfl) (Or.inl rfl)
      (by decide)
  · exact ((c3_submit_validation_chain [sampleRole] [] "r1" "a@x.com" "1"
      "Inclined" "ok" 0).2.2.2.2.2.2.2.1 sampleRole { id := "1", name := "Alice" }
      (by rfl) (by decide) (by decide) (by decide) (by rfl) (Or.inl rfl)
      (by decide)).2

/-- C7 counterexample: `create_role` stores voter emails trimmed but
neither lower-cased nor deduplicated — "A@X.com" is stored with its
upper-case letters next to " a@x.com " even though both normalize to the
same address. -/
theorem c7_counterexample :
    (create_role [] "Engineer" [CandInput.str "Alice"]
        ["A@X.com", " a@x.com "] "active" "r7").2 =
      .ok { id := "r7"
            position := "Engineer"
            candidates := [{ id := "1", name := "Alice" }]
            allowed_emails := ["A@X.com", "a@x.com"]
            status := "active"
            allow_results_override := false } ∧
    pyLower "A@X.com" ≠ "A@X.com" ∧
    normalizeEmail "A@X.com" = normalizeEmail " a@x.com " := by
  exact ⟨by rfl, by decide, by decide⟩

/-- C7 as amended: `create_role` accepts between 1 and 5 voter emails
(entries blank after trimming are dropped; duplicates and letter case are
both kept — the list is stored trimmed, in order, with lower-casing
happening only later at authorization time), requires each kept entry to
contain `@` and `.` after trimming, and rejects more than 5 emails with
the too-many-voters error before anything is persisted. -/
theorem c7_create_role_voter_email_rules (roles : List Role)
    (position_arg : String) (cands : List CandInput) (emails : List String)
    (status_arg new_id : String)
    (hpos : position_arg.pyStrip ≠ "")
    (hcands : build_candidates_fresh 1 cands ≠ [])
    (hgood : ∀ e ∈ emails, e.pyStrip ≠ "" ∧ e.pyStrip.pyContains '@' = true ∧
      e.pyStrip.pyContains '.' = true) :
    (1 ≤ emails.length → emails.length ≤ 5 →
      create_role roles position_arg cands emails status_arg new_id =
        (roles ++
          [{ id := new_id
             position := position_arg.pyStrip
             candidates := build_candidates_fresh 1 cands
             allowed_emails := emails.map String.pyStrip
             status :=
               if status_arg = "active" ∨ status_arg = "fulfilled" ∨
                   status_arg = "expired" then status_arg else "active"
             allow_results_override := false }],
         .ok
          { id := new_id
            position := position_arg.pyStrip
            candidates := build_candidates_fresh 1 cands
            allowed_emails := emails.map String.pyStrip
            status :=
              if status_arg = "active" ∨ status_arg = "fulfilled" ∨
                  status_arg = "expired" then status_arg else "active"
            allow_results_override := false })) ∧
    (5 < emails.length →
      create_role roles position_arg cands emails status_arg new_id =
        (roles, .error .tooManyVoters)) := by
  have hvc : ¬(build_candidates_fresh 1 cands).length = 0 := by
    rw [List.length_eq_zero]
    exact hcands
  constructor
  · intro h1 h5
    unfold create_role
    rw [if_neg hpos]
    dsimp only
    rw [if_neg hvc, validate_emails_all_good emails hgood]
    dsimp only
    rw [if_neg (by rw [List.length_map]; omega),
      if_neg (by rw [List.length_map]; omega)]
  · intro h6
    unfold create_role
    rw [if_neg hpos]
    dsimp only
    rw [if_neg hvc, validate_emails_all_good emails hgood]
    dsimp only
    rw [if_neg (by rw [List.length_map]; omega),
      if_pos (by rw [List.length_map]; exact h6)]

/-- Witness for the amended C7: five emails are accepted and stored
trimmed in order; six emails are rejected with no role persisted. -/
theorem c7_witness :
    create_role [] "Lead" [CandInput.str "Eve"]
        ["a@x.com", "B@X.com", "c@x.com ", "d@x.com", "e@x.com"] "active"
        "r8" =
      ([{ id := "r8"
          position := "Lead"
          candidates := [{ id := "1", name := "Eve" }]
          allowed_emails := ["a@x.com", "B@X.com", "c@x.com", "d@x.com",
            "e@x.com"]
          status := "active"
          allow_results_override := false }],
       .ok
        { id := "r8"
          position := "Lead"
          candidates := [{ id := "1", name := "Eve" }]
          allowed_emails := ["a@x.com", "B@X.com", "c@x.com", "d@x.com",
            "e@x.com"]
          status := "active"
          allow_results_override := false }) ∧
    create_role [] "Lead" [CandInput.str "Eve"]
        ["a@x.com", "b@x.com", "c@x.com", "d@x.com", "e@x.com", "f@x.com"]
        "active" "r8" =
      ([], .error .tooManyVoters) := by
  constructor
  · have h := (c7_create_role_voter_email_rules [] "Lead" [CandInput.str "Eve"]
      ["a@x.com", "B@X.com", "c@x.com ", "d@x.com", "e@x.com"] "active" "r8"
      (by decide) (by decide) (by decide)).1 (by decide) (by decide)
    rw [h]
    rfl
  · exact (c7_create_role_voter_email_rules [] "Lead" [CandInput.str "Eve"]
      ["a@x.com", "b@x.com", "c@x.com", "d@x.com", "e@x.com", "f@x.com"]
      "active" "r8" (by decide) (by decide) (by decide)).2 (by decide)

/-- The voter-email block never touches the candidate list. -/
theorem apply_emails_update_candidates (role : Role)
    (aem : Option (List String)) (r4 : Role)
    (h : apply_emails_update role aem = .ok r4) :
    r4.candidates = role.candidates := by
  unfold apply_emails_update at h
  cases aem with
  | none =>
    injection h with h
    rw [← h]
  | some es =>
    dsimp only at h
    cases hve : validate_emails es with
    | error bad => rw [hve] at h; exact absurd h (by simp)
    | ok oks =>
      rw [hve] at h
      dsimp only at h
      by_cases hlen : 0 < oks.length
      · rw [if_pos hlen] at h
        injection h with h
        rw [← h]
      · rw [if_neg hlen] at h
        injection h with h
        rw [← h]

/-- C5: `update_role` can never drop a voted-for candidate identifier — a
supplied candidate list missing one is rejected with the conflict error
and the whole store is left unchanged, and after any successful update
every voted-for identifier present in the old candidate list is still in
the new one. -/
theorem c5_voted_candidates_never_removed (roles : List Role)
    (votes : List Vote) (rid : String) (data : UpdateData) (role0 : Role)
    (hrole : get_role_by_id roles rid = some role0) :
    (∀ new_candidates max_id,
      data.candidates = some new_candidates →
      0 < (votes.filter (fun v => v.role_id == some rid)).length →
      max_candidate_id role0.candidates = some max_id →
      (votes.filter (fun v => v.role_id == some rid)).any
        (fun v => !((build_candidates_preserving role0.candidates max_id
          new_candidates).any (fun c => c.id == v.candidate_id))) = true →
      update_role roles votes rid data =
        (roles, .error .cannotRemoveVotedCandidates)) ∧
    (∀ role4, (update_role roles votes rid data).2 = .ok role4 →
      ∀ cid, (∃ v ∈ votes, v.role_id = some rid ∧ v.candidate_id = cid) →
        cid ∈ role0.candidates.map Candidate.id →
        cid ∈ role4.candidates.map Candidate.id) := by
  constructor
  · intro ncs max_id hcx hlen hmax hany
    unfold update_role
    rw [hrole]
    dsimp only
    rw [hcx]
    dsimp only
    rw [if_pos hlen, hmax]
    dsimp only
    rw [if_pos hany]
  · intro role4 hok cid hvoted hold
    obtain ⟨v, hv_mem, hv_rid, hv_cid⟩ := hvoted
    have hv_filter : v ∈ votes.filter (fun v => v.role_id == some rid) := by
      rw [List.mem_filter]
      exact ⟨hv_mem, by simp [hv_rid]⟩
    have hlen : 0 < (votes.filter (fun v => v.role_id == some rid)).length :=
      List.length_pos.mpr (List.ne_nil_of_mem hv_filter)
    unfold update_role at hok
    rw [hrole] at hok
    dsimp only at hok
    cases hcx : data.candidates with
    | none =>
      rw [hcx] at hok
      dsimp only at hok
      split at hok
      · exact absurd hok (by simp)
      next r4 hem =>
        dsimp only at hok
        injection hok with hok
        rw [← hok, apply_emails_update_candidates _ _ _ hem,
          apply_position_update_candidates, apply_status_update_candidates]
        exact hold
    | some ncs =>
      rw [hcx] at hok
      dsimp only at hok
      rw [if_pos hlen] at hok
      cases hmax : max_candidate_id role0.candidates with
      | none => rw [hmax] at hok; exact absurd hok (by simp)
      | some max_id =>
        rw [hmax] at hok
        dsimp only at hok
        by_cases hany : (votes.filter (fun v => v.role_id == some rid)).any
            (fun v => !((build_candidates_preserving role0.candidates max_id
              ncs).any (fun c => c.id == v.candidate_id))) = true
        · rw [if_pos hany] at hok
          exact absurd hok (by simp)
        · rw [if_neg hany] at hok
          dsimp only at hok
          split at hok
          · exact absurd hok (by simp)
          next r4 hem =>
            dsimp only at hok
            injection hok with hok
            have hc4 := apply_emails_update_candidates _ _ _ hem
            rw [← hok, hc4]
            dsimp only
            have hall : (build_candidates_preserving role0.candidates max_id
                ncs).any (fun c => c.id == v.candidate_id) = true := by
              by_contra hcon
              apply hany
              rw [List.any_eq_true]
              exact ⟨v, hv_filter, by
                rw [Bool.not_eq_true] at hcon
                rw [hcon]
                rfl⟩
            obtain ⟨c, hc_mem, hc_eq⟩ := List.any_eq_true.mp hall
            rw [List.mem_map]
            exact ⟨c, hc_mem, by
              rw [hv_cid] at hc_eq
              exact (beq_iff_eq.mp hc_eq)⟩

/-- Witness for C5: removing voted-for candidate "1" from `sampleRole` is
refused with the store unchanged, while a superset update keeps "1". -/
theorem c5_witness :
    update_role [sampleRole] [sampleVote] "r1"
        { status := none, position := none,
          candidates := some [CandInput.obj (some "2") "Bob"],
          allowed_emails := none } =
      ([sampleRole], .error .cannotRemoveVotedCandidates) ∧
    "1" ∈ List.map Candidate.id
      (Role.candidates { sampleRole with
        candidates := [{ id := "1", name := "Alicia" },
          { id := "3", name := "Newguy" }] }) := by
  have h5 := c5_voted_candidates_never_removed [sampleRole] [sampleVote] "r1"
    { status := none, position := none,
      candidates := some [CandInput.obj (some "2") "Bob"],
      allowed_emails := none } sampleRole (by rfl)
  have h5b := c5_voted_candidates_never_removed [sampleRole] [sampleVote] "r1"
    { status := none, position := none,
      candidates := some [CandInput.obj (some "1") "Alicia",
        CandInput.str "Newguy"],
      allowed_emails := none } sampleRole (by rfl)
  constructor
  · exact h5.1 [CandInput.obj (some "2") "Bob"] 2 (by rfl) (by decide)
      (by decide) (by decide)
  · exact h5b.2 { sampleRole with
      candidates := [{ id := "1", name := "Alicia" },
        { id := "3", name := "Newguy" }] } (by rfl) "1"
      ⟨sampleVote, by simp, rfl, rfl⟩ (by decide)
